import Mathlib

/-!
Verification development for the `LLDB_Formatters/linear.py` module of the
Pretty_LLDB repository.

The module provides two LLDB summary providers:

* `linear_container_summary_provider` — summaries for pointer-linked
  containers (lists, stacks, queues), delegating the walk to a traversal
  strategy and assembling the final one-line string;
* `vector_summary_provider` — summaries for libc++ `std::vector`, deriving
  size and capacity from the `__begin_` / `__end_` / `__end_cap_` boundary
  pointers (the latter unwrapped through `_extract_vector_end_cap_pointer`)
  and materializing a bounded element preview.

The shallow embedding below models LLDB `SBValue` / `SBType` handles as
finite trees.  The helper layer (`helpers.py`: `get_child_member_by_names`,
`get_raw_pointer`, `get_value_summary`, the global configuration) and the
traversal strategy (`strategies.py`) are not part of the provided sources;
they are modelled from the specification's MemoryView / LinkedTraversal
interface contracts and are marked as such in their doc comments.  All other
definitions are direct translations of `linear.py`.
-/

set_option autoImplicit false

/-- Model of an LLDB `SBType`: whether the type is a pointer type, its byte
size, and (for pointer types) the pointee type — `none` models an invalid
(falsy) pointee type handle. -/
inductive SBType : Type where
  | mk (isPointer : Bool) (byteSize : Nat) (pointee : Option SBType) : SBType

def SBType.IsPointerType : SBType → Bool
  | .mk p _ _ => p

def SBType.GetByteSize : SBType → Nat
  | .mk _ s _ => s

def SBType.GetPointeeType : SBType → Option SBType
  | .mk _ _ t => t

/-- Model of an LLDB `SBValue`: validity flag, declared type, raw unsigned
content (the address for pointer-shaped values), the host's best-effort
rendered summary string, and the ordered list of named structural
children. -/
inductive SBValue : Type where
  | mk (valid : Bool) (type : SBType) (value : Nat) (summary : String)
       (children : List (String × SBValue)) : SBValue

def SBValue.IsValid : SBValue → Bool
  | .mk b _ _ _ _ => b

def SBValue.GetType : SBValue → SBType
  | .mk _ t _ _ _ => t

def SBValue.GetValueAsUnsigned : SBValue → Nat
  | .mk _ _ n _ _ => n

def SBValue.GetSummaryString : SBValue → String
  | .mk _ _ _ s _ => s

def SBValue.children : SBValue → List (String × SBValue)
  | .mk _ _ _ _ cs => cs

/-- LLDB `SBValue.GetChildMemberWithName`, as an `Option` (absent child is
`none` rather than an invalid handle). -/
def SBValue.GetChildMemberWithName (v : SBValue) (name : String) : Option SBValue :=
  (v.children.find? (fun c => c.1 == name)).map (fun c => c.2)

def SBValue.GetNumChildren (v : SBValue) : Nat :=
  v.children.length

def SBValue.GetChildAtIndex (v : SBValue) (i : Nat) : Option SBValue :=
  (v.children.get? i).map (fun c => c.2)

/-- Modelled from the spec: `helpers.get_child_member_by_names`
(`resolveField(handle, candidateNames)`; `helpers.py` is not among the
provided sources).  Tries each candidate name in order and returns the first
structurally present and valid child; absence is a normal outcome. -/
def get_child_member_by_names (v : SBValue) (names : List String) : Option SBValue :=
  names.findSome? (fun name =>
    match v.GetChildMemberWithName name with
    | some child => if child.IsValid then some child else none
    | none => none)

/-- Modelled from the spec: `helpers.get_raw_pointer`
(`readPointer(handle) -> Address`; `helpers.py` is not among the provided
sources).  Returns 0 if the handle is invalid or not pointer-shaped, else
the raw address. -/
def get_raw_pointer (v : SBValue) : Nat :=
  if v.IsValid && v.GetType.IsPointerType then v.GetValueAsUnsigned else 0

/-- Modelled from the spec: `helpers.get_value_summary`
(`renderScalar(handle) -> string`; `helpers.py` is not among the provided
sources).  Best-effort textual rendering of a value, or the bracketed error
marker when the value is absent or invalid. -/
def get_value_summary : Option SBValue → String
  | none => "[unavailable]"
  | some v => if v.IsValid then v.GetSummaryString else "[unavailable]"

/-- Modelled from the spec: the color escape strings of `helpers.Colors`
(presentation collaborator; `helpers.py` is not among the provided
sources).  Kept abstract so every theorem holds for any escape strings. -/
structure Colors where
  GREEN : String
  RESET : String
  YELLOW : String
  BOLD_CYAN : String
  RED : String

/-- Modelled from the spec: the process-wide configuration (`g_config` item
cap plus the color-enable flag of `should_use_colors`). -/
structure GConfig where
  summary_max_items : Nat
  use_colors : Bool
  colors : Colors

/-- Modelled from the spec: the metadata dictionary returned by
`LinearTraversalStrategy.traverse` — the two keys read by `linear.py`. -/
structure TraversalMetadata where
  doubly_linked : Bool
  truncated : Bool

/-- Modelled from the spec: the host environment collaborators used by
`linear.py` — `SBValue.CreateValueFromAddress` (the `synthesize` primitive,
`none` when the call raises / the address is unreadable) and
`LinearTraversalStrategy.traverse` (`strategies.py` is not among the
provided sources). -/
structure HostEnv where
  createValueFromAddress : SBValue → String → Nat → SBType → Option SBValue
  traverse : SBValue → Nat → List String × TraversalMetadata

-- ------------------------------------------------------------------ --
-- linear.py, linear_container_summary_provider (lines 28-92)
-- ------------------------------------------------------------------ --

def linked_head_names : List String := ["head", "m_head", "_head", "top"]

def linked_size_names : List String := ["count", "size", "m_size", "_size"]

/-- `linear_container_summary_provider` from `linear.py` (lines 31-92). -/
def linear_container_summary_provider (cfg : GConfig) (env : HostEnv)
    (valobj : SBValue) : String :=
  match get_child_member_by_names valobj linked_head_names with
  | none => "Error: Could not find head pointer member."
  | some head_ptr =>
    if get_raw_pointer head_ptr = 0 then "size = 0, []"
    else
      let vm := env.traverse head_ptr cfg.summary_max_items
      let C_GREEN := if cfg.use_colors then cfg.colors.GREEN else ""
      let C_RESET := if cfg.use_colors then cfg.colors.RESET else ""
      let C_YELLOW := if cfg.use_colors then cfg.colors.YELLOW else ""
      let C_BOLD_CYAN := if cfg.use_colors then cfg.colors.BOLD_CYAN else ""
      let C_RED := if cfg.use_colors then cfg.colors.RED else ""
      let size_str :=
        match get_child_member_by_names valobj linked_size_names with
        | some m => "size = " ++ toString m.GetValueAsUnsigned
        | none => ""
      let colored_values := vm.1.map (fun v =>
        if v.startsWith "[" then C_RED ++ v ++ C_RESET else C_YELLOW ++ v ++ C_RESET)
      let separator :=
        if vm.2.doubly_linked then " " ++ C_BOLD_CYAN ++ "<->" ++ C_RESET ++ " "
        else " " ++ C_BOLD_CYAN ++ "->" ++ C_RESET ++ " "
      let summary_str := String.intercalate separator colored_values
      let summary_str2 :=
        if vm.2.truncated then summary_str ++ " " ++ separator.trim ++ " ..."
        else summary_str
      C_GREEN ++ size_str ++ C_RESET ++ ", [" ++ summary_str2 ++ "]"

-- ------------------------------------------------------------------ --
-- linear.py, _extract_vector_end_cap_pointer (lines 96-119)
-- ------------------------------------------------------------------ --

def wrapper_field_names : List String :=
  ["__value_", "__first_", "first", "__value", "__first"]

/-- The named-wrapper probe loop of `_extract_vector_end_cap_pointer`
(lines 103-112): for each wrapper-field name, use the one-level child if it
is pointer-typed, otherwise try its first valid wrapper-named nested child
and use that if pointer-typed. -/
def _extract_vector_end_cap_probe (v : SBValue) : Option SBValue :=
  wrapper_field_names.findSome? (fun name =>
    match v.GetChildMemberWithName name with
    | some child =>
      if child.IsValid then
        if child.GetType.IsPointerType then some child
        else
          match get_child_member_by_names child wrapper_field_names with
          | some nested =>
            if nested.IsValid && nested.GetType.IsPointerType then some nested
            else none
          | none => none
      else none
    | none => none)

/-- The final child-scan loop of `_extract_vector_end_cap_pointer`
(lines 114-117): the first valid pointer-typed structural child. -/
def _extract_vector_end_cap_scan (v : SBValue) : Option SBValue :=
  v.children.findSome? (fun c =>
    if c.2.IsValid && c.2.GetType.IsPointerType then some c.2 else none)

/-- `_extract_vector_end_cap_pointer` from `linear.py` (lines 96-119). -/
def _extract_vector_end_cap_pointer : Option SBValue → Option SBValue
  | none => none
  | some v =>
    if v.IsValid then
      if v.GetType.IsPointerType then some v
      else
        match _extract_vector_end_cap_probe v with
        | some p => some p
        | none => _extract_vector_end_cap_scan v
    else none

-- ------------------------------------------------------------------ --
-- linear.py, vector_summary_provider (lines 122-203)
-- ------------------------------------------------------------------ --

def vector_begin_ptr (valobj : SBValue) : Option SBValue :=
  get_child_member_by_names valobj ["__begin_", "__begin"]

def vector_end_ptr (valobj : SBValue) : Option SBValue :=
  get_child_member_by_names valobj ["__end_", "__end"]

def vector_end_cap_ptr (valobj : SBValue) : Option SBValue :=
  _extract_vector_end_cap_pointer
    (get_child_member_by_names valobj ["__end_cap_", "__end_cap"])

/-- Lines 146-151: the element type, present exactly when the begin pointer
is pointer-typed and its pointee type is valid. -/
def vector_elem_type (begin_ptr : SBValue) : Option SBType :=
  if begin_ptr.GetType.IsPointerType then begin_ptr.GetType.GetPointeeType else none

/-- Lines 146-151: the derived element byte size (0 when undeterminable). -/
def vector_element_size (begin_ptr : SBValue) : Nat :=
  match vector_elem_type begin_ptr with
  | some t => t.GetByteSize
  | none => 0

/-- Lines 153-155: the derived logical length.  The Python guard
`begin_addr and end_addr and element_size > 0 and end_addr >= begin_addr`
tests integer truthiness, i.e. both addresses nonzero. -/
def vector_size (begin_addr end_addr element_size : Nat) : Nat :=
  if begin_addr ≠ 0 ∧ end_addr ≠ 0 ∧ element_size > 0 ∧ end_addr ≥ begin_addr then
    (end_addr - begin_addr) / element_size
  else 0

/-- Lines 157-161: the derived capacity, `none` when unknown.  The Python
guard `end_cap_addr and element_size > 0 and end_cap_addr >= begin_addr`
tests integer truthiness of the capacity-end address. -/
def vector_capacity (end_cap_ptr : Option SBValue) (begin_addr element_size : Nat) :
    Option Nat :=
  match end_cap_ptr with
  | some cp =>
    if get_raw_pointer cp ≠ 0 ∧ element_size > 0 ∧ get_raw_pointer cp ≥ begin_addr then
      some ((get_raw_pointer cp - begin_addr) / element_size)
    else none
  | none => none

/-- Lines 163-177: the element preview window and the truncation flag. -/
def vector_values (env : HostEnv) (valobj : SBValue) (size element_size begin_addr : Nat)
    (elem_type : Option SBType) (max_items : Nat) : List String × Bool :=
  if size > 0 ∧ element_size > 0 then
    match elem_type with
    | some et =>
      let show_count := min size max_items
      ((List.range show_count).map (fun i =>
        get_value_summary
          (env.createValueFromAddress valobj ("[" ++ toString i ++ "]")
            (begin_addr + i * element_size) et)),
       decide (size > max_items))
    | none => ([], false)
  else ([], false)

def vector_size_str (size : Nat) : String := "size = " ++ toString size

def vector_capacity_str : Option Nat → String
  | some c => "capacity = " ++ toString c
  | none => "capacity = ?"

/-- Line 198: `data = 0x{begin_addr:x}` when the begin address is nonzero
(integer truthiness), else `data = null`. -/
def vector_data_str (begin_addr : Nat) : String :=
  if begin_addr ≠ 0 then "data = 0x" ++ String.mk (Nat.toDigits 16 begin_addr)
  else "data = null"

/-- Lines 143-203 of `vector_summary_provider`, after both storage pointers
have been located. -/
def vector_summary_core (cfg : GConfig) (env : HostEnv) (valobj : SBValue)
    (begin_ptr end_ptr : SBValue) : String :=
  let C_GREEN := if cfg.use_colors then cfg.colors.GREEN else ""
  let C_RESET := if cfg.use_colors then cfg.colors.RESET else ""
  let C_YELLOW := if cfg.use_colors then cfg.colors.YELLOW else ""
  let C_RED := if cfg.use_colors then cfg.colors.RED else ""
  let begin_addr := get_raw_pointer begin_ptr
  let end_addr := get_raw_pointer end_ptr
  let elem_type := vector_elem_type begin_ptr
  let element_size := vector_element_size begin_ptr
  let size := vector_size begin_addr end_addr element_size
  let capacity := vector_capacity (vector_end_cap_ptr valobj) begin_addr element_size
  let vt := vector_values env valobj size element_size begin_addr elem_type
    cfg.summary_max_items
  let colored_values := vt.1.map (fun value =>
    if value ≠ "" ∧ value.startsWith "[" then C_RED ++ value ++ C_RESET
    else C_YELLOW ++ value ++ C_RESET)
  let elements_str :=
    if size = 0 then ""
    else if vt.1 ≠ [] then String.intercalate ", " colored_values
    else C_RED ++ "[unavailable]" ++ C_RESET
  let elements_str2 :=
    if vt.2 then (if elements_str ≠ "" then elements_str ++ ", ..." else "...")
    else elements_str
  C_GREEN ++ vector_size_str size ++ C_RESET ++ ", " ++
    C_GREEN ++ vector_capacity_str capacity ++ C_RESET ++ ", " ++
    C_GREEN ++ vector_data_str begin_addr ++ C_RESET ++ ", [" ++ elements_str2 ++ "]"

/-- `vector_summary_provider` from `linear.py` (lines 124-203). -/
def vector_summary_provider (cfg : GConfig) (env : HostEnv) (valobj : SBValue) : String :=
  match vector_begin_ptr valobj, vector_end_ptr valobj with
  | some begin_ptr, some end_ptr => vector_summary_core cfg env valobj begin_ptr end_ptr
  | _, _ => "Error: Could not locate vector storage pointers."

-- ------------------------------------------------------------------ --
-- Specification-side definitions (claim wording), for refinement
-- comparison with the source definitions above
-- ------------------------------------------------------------------ --

/-- Follows claim C1's words: the logical length equals
`(address(end) - address(begin)) / element_size` when
`address(end) >= address(begin)` and `element_size > 0`, else 0. -/
def spec_logical_length (begin_addr end_addr element_size : Nat) : Nat :=
  if end_addr ≥ begin_addr ∧ element_size > 0 then
    (end_addr - begin_addr) / element_size
  else 0

/-- Follows amended claim C1's words: as `spec_logical_length`, but the
formula additionally applies only when both boundary addresses are nonzero
(a null boundary address reads as "no data" and yields length 0). -/
def spec_logical_length_amended (begin_addr end_addr element_size : Nat) : Nat :=
  if end_addr ≥ begin_addr ∧ element_size > 0 ∧ begin_addr ≠ 0 ∧ end_addr ≠ 0 then
    (end_addr - begin_addr) / element_size
  else 0

/-- Follows claim C2's words: capacity is
`(address(capEnd) - address(begin)) / element_size` exactly when
`element_size > 0` and `address(capEnd) >= address(begin)` (the candidate
having been recovered), otherwise unknown. -/
def spec_capacity (end_cap_addr begin_addr element_size : Nat) : Option Nat :=
  if element_size > 0 ∧ end_cap_addr ≥ begin_addr then
    some ((end_cap_addr - begin_addr) / element_size)
  else none

/-- Follows amended claim C2's words: as `spec_capacity`, but the capacity
is reported only when the recovered capacity-end address is additionally
nonzero; otherwise it is unknown. -/
def spec_capacity_amended (end_cap_addr begin_addr element_size : Nat) : Option Nat :=
  if element_size > 0 ∧ end_cap_addr ≥ begin_addr ∧ end_cap_addr ≠ 0 then
    some ((end_cap_addr - begin_addr) / element_size)
  else none

/-- Follows claim C3's words, staged strictly in the stated order: use the
candidate directly if pointer-typed; otherwise probe the fixed wrapper-field
names one level deep (first pointer-typed named child wins); then two levels
deep (first pointer-typed wrapper-named grandchild under a wrapper-named
child wins); then scan all structural children for the first pointer-typed
one; absence at every stage yields `none`. -/
def end_cap_unwrap_claim : Option SBValue → Option SBValue
  | none => none
  | some v =>
    if v.IsValid then
      if v.GetType.IsPointerType then some v
      else
        match wrapper_field_names.findSome? (fun name =>
          match v.GetChildMemberWithName name with
          | some child =>
            if child.IsValid && child.GetType.IsPointerType then some child else none
          | none => none) with
        | some p => some p
        | none =>
          match wrapper_field_names.findSome? (fun name1 =>
            match v.GetChildMemberWithName name1 with
            | some child =>
              if child.IsValid then
                wrapper_field_names.findSome? (fun name2 =>
                  match child.GetChildMemberWithName name2 with
                  | some nested =>
                    if nested.IsValid && nested.GetType.IsPointerType then some nested
                    else none
                  | none => none)
              else none
            | none => none) with
          | some p => some p
          | none =>
            v.children.findSome? (fun c =>
              if c.2.IsValid && c.2.GetType.IsPointerType then some c.2 else none)
    else none

/-- Follows amended claim C3's words: for each wrapper-field name in order,
the one-level child is taken if pointer-typed, otherwise that child's first
valid wrapper-named nested field is taken if (and only if) it is
pointer-typed; after the names are exhausted, all structural children are
scanned for the first valid pointer-typed one; absence at every stage
yields `none`. -/
def amended_probe_step (v : SBValue) (name : String) : Option SBValue :=
  (v.GetChildMemberWithName name).bind (fun child =>
    if child.IsValid && child.GetType.IsPointerType then some child
    else if child.IsValid then
      (get_child_member_by_names child wrapper_field_names).bind (fun nested =>
        if nested.IsValid && nested.GetType.IsPointerType then some nested else none)
    else none)

/-- Follows amended claim C3's words (see `amended_probe_step`). -/
def end_cap_unwrap_amended (cand : Option SBValue) : Option SBValue :=
  cand.bind (fun v =>
    if v.IsValid then
      if v.GetType.IsPointerType then some v
      else
        match wrapper_field_names.findSome? (amended_probe_step v) with
        | some p => some p
        | none =>
          v.children.findSome? (fun c =>
            if c.2.IsValid && c.2.GetType.IsPointerType then some c.2 else none)
    else none)

-- ------------------------------------------------------------------ --
-- Concrete values used by witnesses and counterexamples
-- ------------------------------------------------------------------ --

/-- A 4-byte non-pointer element type. -/
def elemT4 : SBType := .mk false 4 none

/-- Pointer-to-`elemT4` type (8-byte pointers). -/
def ptrT4 : SBType := .mk true 8 (some elemT4)

/-- An 8-byte non-pointer element type. -/
def elemT8 : SBType := .mk false 8 none

/-- Pointer-to-`elemT8` type. -/
def ptrT8 : SBType := .mk true 8 (some elemT8)

/-- A non-pointer aggregate type. -/
def structT : SBType := .mk false 16 none

/-- Neutral color configuration with colors disabled and a cap of 10. -/
def cfg0 : GConfig := ⟨10, false, ⟨"", "", "", "", ""⟩⟩

/-- Host environment whose synthesize primitive always fails and whose
traversal returns nothing. -/
def env0 : HostEnv := ⟨fun _ _ _ _ => none, fun _ _ => ([], ⟨false, false⟩)⟩

/-- Begin pointer reading as the null address (corrupt/empty storage). -/
def c1bp : SBValue := .mk true ptrT4 0 "" []

/-- End pointer reading as address 4. -/
def c1ep : SBValue := .mk true ptrT4 4 "" []

/-- A vector whose begin pointer reads as 0 while its end pointer reads
as 4. -/
def c1vec : SBValue := .mk true structT 0 "" [("__begin_", c1bp), ("__end_", c1ep)]

/-- A recovered capacity-end pointer reading as the null address. -/
def c2cap : SBValue := .mk true ptrT4 0 "" []

/-- A vector whose `__end_cap_` field is a pointer reading as 0. -/
def c2vec : SBValue := .mk true structT 0 "" [("__end_cap_", c2cap)]

/-- Nested wrapper pointer at depth two, reading as address 17. -/
def c3ptrA : SBValue := .mk true ptrT4 17 "" []

/-- Direct wrapper pointer at depth one, reading as address 99. -/
def c3ptrB : SBValue := .mk true ptrT4 99 "" []

/-- A compressed-pair-like wrapper whose only pointer child sits behind
`__first_`. -/
def c3wrap : SBValue := .mk true structT 0 "" [("__first_", c3ptrA)]

/-- Capacity candidate whose `__value_` child wraps a depth-two pointer and
whose `__first_` child is itself a depth-one pointer. -/
def c3cap : SBValue := .mk true structT 0 "" [("__value_", c3wrap), ("__first_", c3ptrB)]

/-- A head pointer reading as the null address. -/
def c5head : SBValue := .mk true ptrT4 0 "" []

/-- A linked container whose `head` pointer reads as 0. -/
def c5list : SBValue := .mk true structT 0 "" [("head", c5head)]

/-- A valid begin pointer at address 0x1000. -/
def c6bp : SBValue := .mk true ptrT4 4096 "" []

/-- A vector value exposing only `__begin_` (no end boundary). -/
def c6vec : SBValue := .mk true structT 0 "" [("__begin_", c6bp)]

/-- A non-pointer-typed begin boundary candidate. -/
def c7bp : SBValue := .mk true structT 123 "" []

/-- A vector with a null begin pointer and a nonzero end pointer. -/
def c10bp : SBValue := .mk true ptrT4 0 "" []

/-- End pointer reading as address 0x1000. -/
def c10ep : SBValue := .mk true ptrT4 4096 "" []

/-- Vector whose begin pointer reads as 0 regardless of its end pointer. -/
def c10vec : SBValue := .mk true structT 0 "" [("__begin_", c10bp), ("__end_", c10ep)]

/-- Begin pointer at 0x1000 over 4-byte elements. -/
def cwbp : SBValue := .mk true ptrT4 4096 "" []

/-- End pointer at 0x1000 + 10*4. -/
def cwep : SBValue := .mk true ptrT4 4136 "" []

/-- Capacity-end pointer at 0x1000 + 16*4. -/
def cwcap : SBValue := .mk true ptrT4 4160 "" []

/-- A well-formed vector: 10 elements of 4 bytes, capacity 16. -/
def cwvec : SBValue :=
  .mk true structT 0 "" [("__begin_", cwbp), ("__end_", cwep), ("__end_cap_", cwcap)]

-- ------------------------------------------------------------------ --
-- Theorems
-- ------------------------------------------------------------------ --

/-- No string ending in a closing bracket equals a string whose last
character is not a closing bracket (used to separate assembled summaries
from the top-level error strings). -/
theorem append_rbracket_ne (s t : String) (h : t.data.getLast? ≠ some ']') :
    s ++ "]" ≠ t := by
  intro he
  apply h
  rw [← he, String.data_append]
  have hd : ("]" : String).data = [']'] := rfl
  rw [hd, List.getLast?_concat]
/-- C1: for every vector whose begin and end boundary fields both resolve,
the reported logical length follows the guarded difference formula amended
with the additional requirement that both boundary addresses be nonzero
(the Python truthiness guard); it equals 0 in every other case and is never
negative or wrapped. -/
theorem claimC1_theorem (valobj bp ep : SBValue)
    (hb : vector_begin_ptr valobj = some bp) (he : vector_end_ptr valobj = some ep) :
    vector_size (get_raw_pointer bp) (get_raw_pointer ep) (vector_element_size bp)
      = spec_logical_length_amended (get_raw_pointer bp) (get_raw_pointer ep)
          (vector_element_size bp) := by
  unfold vector_size spec_logical_length_amended
  split <;> split <;> first | rfl | tauto

/-- C1 witness: the amended length law evaluated on a healthy 10-element
vector of 4-byte elements. -/
theorem claimC1_witness :
    vector_begin_ptr cwvec = some cwbp ∧ vector_end_ptr cwvec = some cwep ∧
    vector_size (get_raw_pointer cwbp) (get_raw_pointer cwep) (vector_element_size cwbp)
      = spec_logical_length_amended (get_raw_pointer cwbp) (get_raw_pointer cwep)
          (vector_element_size cwbp) :=
  ⟨rfl, rfl, claimC1_theorem cwvec cwbp cwep rfl rfl⟩

/-- C1 counterexample: with both boundaries resolving, begin address 0, end
address 4 and element size 4, the claim's formula demands length 1, but the
code reports 0 — the claim as stated fails at this input. -/
theorem claimC1_counterexample :
    vector_begin_ptr c1vec = some c1bp ∧ vector_end_ptr c1vec = some c1ep ∧
    vector_size (get_raw_pointer c1bp) (get_raw_pointer c1ep) (vector_element_size c1bp) = 0 ∧
    spec_logical_length (get_raw_pointer c1bp) (get_raw_pointer c1ep)
        (vector_element_size c1bp) = 1 ∧
    vector_size (get_raw_pointer c1bp) (get_raw_pointer c1ep) (vector_element_size c1bp)
      ≠ spec_logical_length (get_raw_pointer c1bp) (get_raw_pointer c1ep)
          (vector_element_size c1bp) :=
  ⟨rfl, rfl, rfl, rfl, by decide⟩

/-- C2: the reported capacity follows the guarded difference formula
amended with the additional requirement that the recovered capacity-end
address be nonzero (the Python truthiness guard); every other case reports
unknown capacity (`none`), never an error. -/
theorem claimC2_theorem (valobj : SBValue) (begin_addr element_size : Nat) :
    vector_capacity (vector_end_cap_ptr valobj) begin_addr element_size
      = match vector_end_cap_ptr valobj with
        | some cp => spec_capacity_amended (get_raw_pointer cp) begin_addr element_size
        | none => none := by
  cases h : vector_end_cap_ptr valobj with
  | none => simp [vector_capacity]
  | some cp =>
    simp only [vector_capacity, spec_capacity_amended]
    split <;> split <;> first | rfl | tauto

/-- C2 counterexample: a recovered capacity-end pointer reading as address
0 with begin address 0 and element size 4 satisfies the claim's guard
(capEnd >= begin, element_size > 0), so the claim demands capacity 0, but
the code reports unknown. -/
theorem claimC2_counterexample :
    vector_end_cap_ptr c2vec = some c2cap ∧
    vector_capacity (some c2cap) 0 4 = none ∧
    spec_capacity (get_raw_pointer c2cap) 0 4 = some 0 ∧
    vector_capacity (some c2cap) 0 4 ≠ spec_capacity (get_raw_pointer c2cap) 0 4 :=
  ⟨rfl, rfl, rfl, by decide⟩

/-- C5: a linked container whose head pointer reads as address 0 yields the
canonical empty summary immediately, for every configuration (hence
independently of `maxItems`) and every host environment. -/
theorem claimC5_theorem (cfg : GConfig) (env : HostEnv) (valobj head_ptr : SBValue)
    (hh : get_child_member_by_names valobj linked_head_names = some head_ptr)
    (hz : get_raw_pointer head_ptr = 0) :
    linear_container_summary_provider cfg env valobj = "size = 0, []" := by
  unfold linear_container_summary_provider
  rw [hh]
  simp [hz]

/-- C5 witness: the empty-summary law on a concrete list with a null head
pointer. -/
theorem claimC5_witness :
    get_child_member_by_names c5list linked_head_names = some c5head ∧
    get_raw_pointer c5head = 0 ∧
    linear_container_summary_provider cfg0 env0 c5list = "size = 0, []" :=
  ⟨rfl, rfl, claimC5_theorem cfg0 env0 c5list c5head rfl rfl⟩
/-- C6 (amended): when the begin boundary or the end boundary of a vector
is absent, the provider surfaces the explicit top-level error string rather
than a degraded zero-length summary. -/
theorem claimC6_theorem (cfg : GConfig) (env : HostEnv) (valobj : SBValue)
    (h : vector_begin_ptr valobj = none ∨ vector_end_ptr valobj = none) :
    vector_summary_provider cfg env valobj
      = "Error: Could not locate vector storage pointers." := by
  unfold vector_summary_provider
  cases hb : vector_begin_ptr valobj with
  | none => cases he : vector_end_ptr valobj <;> rfl
  | some bp =>
    cases he : vector_end_ptr valobj with
    | none => rfl
    | some ep =>
      rw [hb, he] at h
      rcases h with h | h <;> exact absurd h (by simp)

/-- C6 witness: the error string on a vector exposing only `__begin_`. -/
theorem claimC6_witness :
    vector_end_ptr c6vec = none ∧
    vector_summary_provider cfg0 env0 c6vec
      = "Error: Could not locate vector storage pointers." :=
  ⟨rfl, claimC6_theorem cfg0 env0 c6vec (Or.inr rfl)⟩

/-- C6 counterexample: a vector whose begin boundary resolves but whose end
boundary is absent is answered with the top-level error string, not with a
degraded `logical_length = 0` summary — the claim as stated fails here. -/
theorem claimC6_counterexample :
    (vector_begin_ptr c6vec).isSome = true ∧ vector_end_ptr c6vec = none ∧
    vector_summary_provider cfg0 env0 c6vec
      = "Error: Could not locate vector storage pointers." :=
  ⟨rfl, rfl, rfl⟩

/-- C7: when the begin pointer is not pointer-typed or the derived element
size is 0, the derived element size is 0, the reported size is 0, the
capacity is unknown, and no element window is materialized — the guarded
definitions never divide by the zero element size. -/
theorem claimC7_theorem (env : HostEnv) (valobj bp : SBValue) (ea max_items : Nat)
    (ecp : Option SBValue)
    (h : bp.GetType.IsPointerType = false ∨ vector_element_size bp = 0) :
    vector_element_size bp = 0 ∧
    vector_size (get_raw_pointer bp) ea (vector_element_size bp) = 0 ∧
    vector_capacity ecp (get_raw_pointer bp) (vector_element_size bp) = none ∧
    vector_values env valobj
        (vector_size (get_raw_pointer bp) ea (vector_element_size bp))
        (vector_element_size bp) (get_raw_pointer bp) (vector_elem_type bp) max_items
      = ([], false) := by
  have hes : vector_element_size bp = 0 := by
    rcases h with h | h
    · unfold vector_element_size vector_elem_type
      rw [h]
      rfl
    · exact h
  rw [hes]
  refine ⟨rfl, ?_, ?_, ?_⟩
  · unfold vector_size; simp
  · unfold vector_capacity; cases ecp <;> simp
  · unfold vector_values; simp

/-- C7 witness: the zero-length, unknown-capacity outcome on a begin
boundary whose declared type is not a pointer. -/
theorem claimC7_witness :
    c7bp.GetType.IsPointerType = false ∧
    vector_element_size c7bp = 0 ∧
    vector_size (get_raw_pointer c7bp) 4096 (vector_element_size c7bp) = 0 ∧
    vector_capacity (some cwcap) (get_raw_pointer c7bp) (vector_element_size c7bp) = none ∧
    vector_values env0 c7bp
        (vector_size (get_raw_pointer c7bp) 4096 (vector_element_size c7bp))
        (vector_element_size c7bp) (get_raw_pointer c7bp) (vector_elem_type c7bp) 10
      = ([], false) :=
  ⟨rfl, claimC7_theorem env0 c7bp c7bp 4096 10 (some cwcap) (Or.inl rfl)⟩

/-- C10: a vector whose begin pointer reads as address 0 reports size 0 and
`data = null`, whatever its end pointer reads as. -/
theorem claimC10_theorem (valobj bp ep : SBValue)
    (hb : vector_begin_ptr valobj = some bp) (he : vector_end_ptr valobj = some ep)
    (hz : get_raw_pointer bp = 0) :
    vector_size (get_raw_pointer bp) (get_raw_pointer ep) (vector_element_size bp) = 0 ∧
    vector_data_str (get_raw_pointer bp) = "data = null" := by
  rw [hz]
  constructor
  · unfold vector_size; simp
  · unfold vector_data_str; simp

/-- C10 witness: a null begin pointer paired with an end pointer reading
0x1000 still yields size 0 and a null data pointer. -/
theorem claimC10_witness :
    vector_begin_ptr c10vec = some c10bp ∧ vector_end_ptr c10vec = some c10ep ∧
    get_raw_pointer c10bp = 0 ∧ get_raw_pointer c10ep = 4096 ∧
    vector_size (get_raw_pointer c10bp) (get_raw_pointer c10ep)
        (vector_element_size c10bp) = 0 ∧
    vector_data_str (get_raw_pointer c10bp) = "data = null" := by
  refine ⟨rfl, rfl, rfl, rfl, ?_⟩
  exact claimC10_theorem c10vec c10bp c10ep rfl rfl rfl
/-- C4: with the element type known, the preview window of a vector of
derived logical length `n` under cap `max_items` holds exactly
`min n max_items` entries, the i-th materialized at
`begin + i * element_size`, and the truncation flag holds exactly when
`n > max_items`. -/
theorem claimC4_theorem (env : HostEnv) (valobj bp : SBValue) (ea max_items n : Nat)
    (et : SBType) (het : vector_elem_type bp = some et)
    (hn : n = vector_size (get_raw_pointer bp) ea (vector_element_size bp)) :
    (vector_values env valobj n (vector_element_size bp) (get_raw_pointer bp)
        (vector_elem_type bp) max_items).1.length = min n max_items ∧
    ((vector_values env valobj n (vector_element_size bp) (get_raw_pointer bp)
        (vector_elem_type bp) max_items).2 = true ↔ n > max_items) ∧
    ∀ i, i < min n max_items →
      (vector_values env valobj n (vector_element_size bp) (get_raw_pointer bp)
          (vector_elem_type bp) max_items).1.get? i
        = some (get_value_summary (env.createValueFromAddress valobj
            ("[" ++ toString i ++ "]")
            (get_raw_pointer bp + i * vector_element_size bp) et)) := by
  by_cases hpos : 0 < n
  · have hes : 0 < vector_element_size bp := by
      by_contra hz
      have h0 : vector_element_size bp = 0 := Nat.le_zero.mp (Nat.not_lt.mp hz)
      rw [h0] at hn
      unfold vector_size at hn
      simp at hn
      omega
    unfold vector_values
    rw [if_pos ⟨hpos, hes⟩, het]
    refine ⟨by simp, by simp [decide_eq_true_iff], ?_⟩
    intro i hi
    simp only [List.get?_map, List.get?_range hi]
    rfl
  · have h0 : n = 0 := Nat.le_zero.mp (Nat.not_lt.mp hpos)
    subst h0
    unfold vector_values
    simp

/-- C4 witness: the preview law on a healthy 10-element vector with cap 10
(no truncation) evaluated against the always-failing synthesize
primitive. -/
theorem claimC4_witness :
    vector_elem_type cwbp = some elemT4 ∧
    (10 : Nat) = vector_size (get_raw_pointer cwbp) 4136 (vector_element_size cwbp) ∧
    ((vector_values env0 cwvec 10 (vector_element_size cwbp) (get_raw_pointer cwbp)
        (vector_elem_type cwbp) 10).1.length = min 10 10 ∧
    ((vector_values env0 cwvec 10 (vector_element_size cwbp) (get_raw_pointer cwbp)
        (vector_elem_type cwbp) 10).2 = true ↔ 10 > 10) ∧
    ∀ i, i < min 10 10 →
      (vector_values env0 cwvec 10 (vector_element_size cwbp) (get_raw_pointer cwbp)
          (vector_elem_type cwbp) 10).1.get? i
        = some (get_value_summary (env0.createValueFromAddress cwvec
            ("[" ++ toString i ++ "]")
            (get_raw_pointer cwbp + i * vector_element_size cwbp) elemT4))) :=
  ⟨rfl, rfl, claimC4_theorem env0 cwvec cwbp 4136 10 10 elemT4 rfl rfl⟩

/-- C8: if materializing the i-th element fails (unreadable memory), that
window slot still holds the bracketed `[unavailable]` marker and the window
keeps its full `min n max_items` length — the failure aborts nothing. -/
theorem claimC8_theorem (env : HostEnv) (valobj : SBValue)
    (n es ba max_items i : Nat) (et : SBType)
    (hn : 0 < n) (hes : 0 < es) (hi : i < min n max_items)
    (hfail : env.createValueFromAddress valobj ("[" ++ toString i ++ "]")
        (ba + i * es) et = none) :
    (vector_values env valobj n es ba (some et) max_items).1.get? i
      = some "[unavailable]" ∧
    (vector_values env valobj n es ba (some et) max_items).1.length
      = min n max_items := by
  unfold vector_values
  rw [if_pos ⟨hn, hes⟩]
  constructor
  · rw [List.get?_map, List.get?_range hi, Option.map_some', hfail]
    rfl
  · simp

/-- C8 witness: the marker law at slot 0 of a 2-element window whose
synthesize primitive always fails. -/
theorem claimC8_witness :
    (0 : Nat) < 2 ∧ (0 : Nat) < 1 ∧ (0 : Nat) < min 2 10 ∧
    env0.createValueFromAddress cwvec ("[" ++ toString (0 : Nat) ++ "]")
        (0 + 0 * 1) elemT4 = none ∧
    ((vector_values env0 cwvec 2 1 0 (some elemT4) 10).1.get? 0
      = some "[unavailable]" ∧
    (vector_values env0 cwvec 2 1 0 (some elemT4) 10).1.length = min 2 10) :=
  ⟨by decide, by decide, by decide, rfl,
    claimC8_theorem env0 cwvec 2 1 0 10 0 elemT4 (by decide) (by decide) (by decide) rfl⟩
/-- The per-name probe loop of the source resolver agrees pointwise with
the amended claim's per-name interleaved probe description. -/
theorem end_cap_probe_eq_amended (v : SBValue) :
    _extract_vector_end_cap_probe v
      = wrapper_field_names.findSome? (amended_probe_step v) := by
  unfold _extract_vector_end_cap_probe
  congr 1
  funext name
  unfold amended_probe_step
  cases hc : v.GetChildMemberWithName name with
  | none => rfl
  | some child =>
    cases hval : child.IsValid with
    | false => simp [hval]
    | true =>
      cases hptr : child.GetType.IsPointerType with
      | true => simp [hval, hptr]
      | false =>
        simp only [hval, hptr, Bool.and_false, Option.some_bind, if_false,
          Bool.false_eq_true, if_true]
        cases hn : get_child_member_by_names child wrapper_field_names with
        | none => simp
        | some nested => simp

/-- C3 (amended): the capacity resolver uses the candidate directly when
pointer-typed; otherwise, for each wrapper-field name in order, it takes
the one-level child if pointer-typed and otherwise that child's first valid
wrapper-named nested field if pointer-typed; after the names are exhausted
it scans all structural children for the first valid pointer-typed one; if
every stage fails the result is absent, never an error. -/
theorem claimC3_theorem (cand : Option SBValue) :
    _extract_vector_end_cap_pointer cand = end_cap_unwrap_amended cand := by
  cases cand with
  | none => rfl
  | some v =>
    simp only [_extract_vector_end_cap_pointer, end_cap_unwrap_amended, Option.some_bind,
      end_cap_probe_eq_amended, _extract_vector_end_cap_scan]

/-- C3 counterexample: on a candidate whose `__value_` child wraps a
depth-two pointer (address 17) while its `__first_` child is itself a
depth-one pointer (address 99), the claimed stage order (all names one
level deep before any two-level probe) must return the depth-one pointer,
but the source's interleaved probe returns the depth-two pointer — the
claim as stated fails at this input. -/
theorem claimC3_counterexample :
    Option.map SBValue.GetValueAsUnsigned
        (_extract_vector_end_cap_pointer (some c3cap)) = some 17 ∧
    Option.map SBValue.GetValueAsUnsigned (end_cap_unwrap_claim (some c3cap)) = some 99 ∧
    _extract_vector_end_cap_pointer (some c3cap) ≠ end_cap_unwrap_claim (some c3cap) := by
  refine ⟨rfl, rfl, fun h => ?_⟩
  have h17 : Option.map SBValue.GetValueAsUnsigned
      (_extract_vector_end_cap_pointer (some c3cap)) = some 17 := rfl
  have h99 : Option.map SBValue.GetValueAsUnsigned
      (end_cap_unwrap_claim (some c3cap)) = some 99 := rfl
  rw [h] at h17
  exact absurd (h17.symm.trans h99) (by decide)
/-- C9: for each provider, total failure of field resolution — no head
field for a linked container, a missing required storage boundary for a
vector — is exactly the case answered with the explicit top-level error
string; with those fields resolved, the provider returns an assembled
best-effort summary, never the error string. -/
theorem claimC9_theorem (cfg : GConfig) (env : HostEnv) (valobj : SBValue) :
    (linear_container_summary_provider cfg env valobj
        = "Error: Could not find head pointer member."
      ↔ get_child_member_by_names valobj linked_head_names = none) ∧
    (vector_summary_provider cfg env valobj
        = "Error: Could not locate vector storage pointers."
      ↔ (vector_begin_ptr valobj = none ∨ vector_end_ptr valobj = none)) := by
  constructor
  · constructor
    · intro h
      cases hh : get_child_member_by_names valobj linked_head_names with
      | none => rfl
      | some hp =>
        exfalso
        unfold linear_container_summary_provider at h
        rw [hh] at h
        by_cases hz : get_raw_pointer hp = 0
        · simp only [hz, if_true, eq_self_iff_true] at h
          exact absurd h (by decide)
        · simp only [hz, if_false, ite_false] at h
          exact append_rbracket_ne _ "Error: Could not find head pointer member."
            (by decide) h
    · intro h
      unfold linear_container_summary_provider
      rw [h]
  · constructor
    · intro h
      cases hhb : vector_begin_ptr valobj with
      | none => exact Or.inl rfl
      | some bp =>
        cases hhe : vector_end_ptr valobj with
        | none => exact Or.inr rfl
        | some ep =>
          exfalso
          simp only [vector_summary_provider, hhb, hhe, vector_summary_core] at h
          exact append_rbracket_ne _ "Error: Could not locate vector storage pointers."
            (by decide) h
    · intro h
      unfold vector_summary_provider
      cases hhb : vector_begin_ptr valobj with
      | none => cases hhe : vector_end_ptr valobj <;> rfl
      | some bp =>
        cases hhe : vector_end_ptr valobj with
        | none => rfl
        | some ep =>
          rw [hhb, hhe] at h
          rcases h with h | h <;> exact absurd h (by simp)
